import Mathlib

/-
Verification development for the OreSat star tracker
(src/startracker/startracker.py).  The Python source is embedded shallowly:
each Lean definition translates one Python function, with the external
collaborators (OpenCV, the beast astrometry engine, the D-Bus transport,
wall-clock time, the random sample choice) abstracted as explicit input
parameters carrying exactly the values the Python code reads from them.
Python floats are modelled as exact rationals; Python `int()` truncation is
modelled by `Int.floor`, which agrees with truncation on the nonnegative
values that arise here.
-/

namespace StarTrackerPy

/-- Abstraction of a decoded image as the Python code observes it through
OpenCV inside `StarTracker.preprocess` (startracker.py lines 111-146):
`height` and `width` come from `img.shape` (line 119); `numBright` is
`cv2.countNonZero(threshold)` for the fixed binarization
`cv2.threshold(img, 80, 255, THRESH_BINARY)` (lines 126-129); `lapVar` is
the Laplacian variance `cv2.Laplacian(img, CV_64F).var()` computed on the
greyscale image (line 133). -/
structure Img where
  height : Nat
  width : Nat
  numBright : Nat
  lapVar : Rat
deriving DecidableEq

/-- Python `int()` applied to the nonnegative float products in
`preprocess`; truncation toward zero coincides with the floor there. -/
def pyInt (q : Rat) : Int := Int.floor q

/-- Translation of `StarTracker.preprocess` (startracker.py lines 111-146).
Line 120: `total_pixels = height * width`; line 121:
`blur_check = int(total_pixels * 0.99996744)`; line 122:
`too_many_check = int(total_pixels * 0.99918619)`; line 129:
`threshold_black = total_pixels - cv2.countNonZero(threshold)`; lines
132-140: the verdict branches, returning the Python status strings
verbatim.  Lines 133-137: when `threshold_black > blur_check` the Laplacian
variance is computed and the image is called blurry only when it is nonzero
and below 5.  (The unreachable `return 1` at line 138 and the debug
printing are not modelled.) -/
def preprocess (img : Img) : String :=
  let total_pixels : Nat := img.height * img.width
  let blur_check : Int := pyInt ((total_pixels : Rat) * (99996744 / 100000000))
  let too_many_check : Int := pyInt ((total_pixels : Rat) * (99918619 / 100000000))
  let threshold_black : Int := (total_pixels : Int) - (img.numBright : Int)
  if blur_check < threshold_black then
    if img.lapVar ≠ 0 ∧ img.lapVar < 5 then "image too blurry"
    else "image contains too few stars"
  else if threshold_black < too_many_check then "unsuitable image"
  else "good"

/-- C5: every all-dark frame (no pixel clears the brightness cutoff) with
exactly zero Laplacian variance is classified as too-few-stars — the
dark fraction exceeds the upper calibration bound, yet the zero blur metric
fails the `blur != 0` guard, so the blurry verdict is never chosen. -/
theorem dark_zero_variance_too_few_stars (img : Img)
    (hdark : img.numBright = 0) (hvar : img.lapVar = 0)
    (hpos : 0 < img.height * img.width) :
    preprocess img = "image contains too few stars" ∧
    preprocess img ≠ "image too blurry" := by
  have hlt : pyInt ((img.height * img.width : Nat) * (99996744 / 100000000) : Rat)
      < ((img.height * img.width : Nat) : Int) := by
    have htot : (0 : Rat) < ((img.height * img.width : Nat) : Rat) := by
      exact_mod_cast hpos
    have hmul : ((img.height * img.width : Nat) : Rat) * (99996744 / 100000000)
        < ((img.height * img.width : Nat) : Rat) := by
      have hfrac : (99996744 / 100000000 : Rat) < 1 := by norm_num
      calc ((img.height * img.width : Nat) : Rat) * (99996744 / 100000000)
          < ((img.height * img.width : Nat) : Rat) * 1 := by
            exact mul_lt_mul_of_pos_left hfrac htot
        _ = ((img.height * img.width : Nat) : Rat) := by ring
    exact Int.floor_lt.mpr (by push_cast at hmul ⊢; exact hmul)
  have hmain : preprocess img = "image contains too few stars" := by
    unfold preprocess
    rw [hdark]
    simp only [Nat.cast_zero, sub_zero]
    rw [if_pos hlt, if_neg]
    intro hcontra
    exact hcontra.1 hvar
  refine ⟨hmain, ?_⟩
  rw [hmain]
  decide

/-- Witness for C5 at a concrete 10-by-10 all-dark, zero-variance frame. -/
theorem dark_zero_variance_too_few_stars_witness :
    (0 : Nat) < 10 * 10 ∧
    (preprocess ⟨10, 10, 0, 0⟩ = "image contains too few stars" ∧
     preprocess ⟨10, 10, 0, 0⟩ ≠ "image too blurry") :=
  ⟨by decide, dark_zero_variance_too_few_stars ⟨10, 10, 0, 0⟩ rfl rfl (by decide)⟩

/-- Result of one `beast.db_match` call as read by `StarTracker.solve`:
`p_match` (lines 197 and 215), the winner star count `winner.size()`
(line 197), and the angles `get_dec`, `get_ra`, `get_ori` extracted from
the winner after `calc_ori` (lines 223-226). -/
structure MatchResult where
  p_match : Rat
  winnerSize : Nat
  dec : Rat
  ra : Rat
  ori : Rat
deriving DecidableEq

/-- Environment of one `StarTracker.solve` call: the value returned by the
coarse full-sky match `beast.db_match(self.C_DB, img_const_n_brightest)`
(line 194), the value returned by the refined field-of-view match
`beast.db_match(fov_db, img_const)` (line 213), the configured
`beast.cvar.REQUIRED_STARS`, and the two `time.time()` readings taken at
lines 157 and 231. -/
structure SolveEnv where
  coarse : MatchResult
  refined : MatchResult
  requiredStars : Nat
  startTime : Rat
  endTime : Rat
deriving DecidableEq

/-- `self.P_MATCH_THRESH = 0.99` (startracker.py line 44). -/
def P_MATCH_THRESH : Rat := 99 / 100

/-- Python value occupying the fourth component of `solve`'s return tuple.
Line 238 of startracker.py is `return dec, ra, ori, time`, whose last
expression is the imported `time` MODULE object, not a float; the float
`runtime` computed at line 231 would be `seconds (endTime - startTime)`. -/
inductive PyTimeValue where
  | timeModule : PyTimeValue
  | seconds : Rat → PyTimeValue
deriving DecidableEq

/-- Match-acceptance logic of `StarTracker.solve` (lines 196-216): the
refined match is stored in `match` only when the coarse match clears
`p_match > P_MATCH_THRESH and winner.size() >= REQUIRED_STARS` (line 197)
and the refined match then clears `p_match > P_MATCH_THRESH` (line 215);
otherwise `match` stays `None`. -/
def solveMatch (env : SolveEnv) : Option MatchResult :=
  if P_MATCH_THRESH < env.coarse.p_match ∧ env.requiredStars ≤ env.coarse.winnerSize then
    if P_MATCH_THRESH < env.refined.p_match then some env.refined else none
  else none

/-- Translation of the result of `StarTracker.solve` (lines 149-238).
Lines 222-228: when `match` is not `None` the angles come from the refined
winner, otherwise `dec, ra, ori = 0.0, 0.0, 0.0`.  Line 231 computes
`runtime = time.time() - starttime` but line 238 returns the `time` module
in its place, so the computed runtime is discarded. -/
def solve (env : SolveEnv) : Rat × Rat × Rat × PyTimeValue :=
  let _runtime : Rat := env.endTime - env.startTime
  match solveMatch env with
  | some m => (m.dec, m.ra, m.ori, PyTimeValue.timeModule)
  | none => (0, 0, 0, PyTimeValue.timeModule)

/-- C3: whenever a matching stage misses its acceptance bar — the coarse
match failing the confidence-and-star-count test, or the refined
field-of-view match failing the same confidence bar even though the coarse
match was accepted — `solve` returns the all-zero invalid solution, the
same total (non-raising) value produced when no match exists at all. -/
theorem solve_invalid_when_stage_fails_bar (env : SolveEnv)
    (h : ¬(P_MATCH_THRESH < env.coarse.p_match ∧
            env.requiredStars ≤ env.coarse.winnerSize) ∨
         ¬(P_MATCH_THRESH < env.refined.p_match)) :
    solve env = (0, 0, 0, PyTimeValue.timeModule) := by
  unfold solve solveMatch
  rcases h with h | h
  · rw [if_neg h]
  · by_cases hc : P_MATCH_THRESH < env.coarse.p_match ∧
        env.requiredStars ≤ env.coarse.winnerSize
    · rw [if_pos hc, if_neg h]
    · rw [if_neg hc]

/-- Witness for C3: the coarse match is accepted (confidence 1, twelve
matched stars) but the refined match reaches only confidence 1/2, and the
solve result is the invalid all-zero solution. -/
theorem solve_invalid_when_stage_fails_bar_witness :
    ¬(P_MATCH_THRESH < (⟨⟨1, 12, 5, 6, 7⟩, ⟨1 / 2, 12, 5, 6, 7⟩, 5, 0, 1⟩ :
        SolveEnv).refined.p_match) ∧
    solve ⟨⟨1, 12, 5, 6, 7⟩, ⟨1 / 2, 12, 5, 6, 7⟩, 5, 0, 1⟩ =
      (0, 0, 0, PyTimeValue.timeModule) :=
  ⟨by norm_num [P_MATCH_THRESH],
   solve_invalid_when_stage_fails_bar ⟨⟨1, 12, 5, 6, 7⟩, ⟨1 / 2, 12, 5, 6, 7⟩, 5, 0, 1⟩
     (Or.inr (by norm_num [P_MATCH_THRESH]))⟩

/-- Chained comparison `self.dec == self.ra == self.ori == 0.0` from
startracker.py line 342, the Pipeline Loop test that decides the
bad-solve (Failed) branch. -/
abbrev badSolveCond (dec ra ori : Rat) : Prop := dec = ra ∧ ra = ori ∧ ori = 0

/-- Solve environment in which BOTH matching stages succeed (confidence 1,
ten matched stars against five required) and the genuinely accepted winner
has declination, right ascension and orientation all exactly zero. -/
def zeroAngleEnv : SolveEnv := ⟨⟨1, 10, 0, 0, 0⟩, ⟨1, 10, 0, 0, 0⟩, 5, 0, 1⟩

/-- Solve environment in which the coarse match finds nothing at all. -/
def noMatchEnv : SolveEnv := ⟨⟨0, 0, 0, 0, 0⟩, ⟨0, 0, 0, 0, 0⟩, 5, 0, 1⟩

/-- C4 counterevidence: a genuine valid solution with all three angles
exactly zero is accepted by both matching stages, yet `solve` returns a
value literally equal to the one produced when no match exists, and the
Pipeline Loop's line-342 test classifies it as a bad solve — validity is
not distinguishable from the angle values. -/
theorem zero_angle_valid_solution_treated_as_failure :
    solveMatch zeroAngleEnv = some (⟨1, 10, 0, 0, 0⟩ : MatchResult) ∧
    solve zeroAngleEnv = solve noMatchEnv ∧
    badSolveCond (solve zeroAngleEnv).1 (solve zeroAngleEnv).2.1
      (solve zeroAngleEnv).2.2.1 := by
  have hz : solveMatch zeroAngleEnv = some (⟨1, 10, 0, 0, 0⟩ : MatchResult) := by
    norm_num [solveMatch, zeroAngleEnv, P_MATCH_THRESH]
  have hn : solveMatch noMatchEnv = none := by
    norm_num [solveMatch, noMatchEnv, P_MATCH_THRESH]
  refine ⟨hz, ?_, ?_⟩
  · unfold solve
    rw [hz, hn]
  · unfold solve badSolveCond
    rw [hz]
    exact ⟨rfl, rfl, rfl⟩

/-- C6 counterevidence: the fourth component of every `solve` return value
is the `time` module object, never the elapsed duration
`endTime - startTime` computed (and discarded) at line 231. -/
theorem solve_duration_component_is_time_module (env : SolveEnv) :
    (solve env).2.2.2 = PyTimeValue.timeModule ∧
    (solve env).2.2.2 ≠ PyTimeValue.seconds (env.endTime - env.startTime) := by
  unfold solve
  constructor
  · cases solveMatch env <;> rfl
  · cases solveMatch env <;> simp

/-- Environment of one `StarTracker.capture` call (startracker.py lines
86-108): `SAMPLE_DIR` as set by `startup`, the file `random.choice` picks
from the sample glob when a sample directory is configured, and the
behaviour of `cv2.imread`, which yields a decoded image or `None`. -/
structure CaptureEnv where
  SAMPLE_DIR : Option String
  chosen : String
  imread : String → Option Img

/-- Translation of `StarTracker.capture` (lines 86-108).  Line 94 tests
`self.SAMPLE_DIR != None`; line 95 picks a random sample path and line 101
returns `path, cv2.imread(path)`.  Outside the sample branch the function
falls through to line 108 and returns `None, None` — the comment
`Capture an image` at line 107 is followed by no camera code at all. -/
def capture (env : CaptureEnv) : Option String × Option Img :=
  match env.SAMPLE_DIR with
  | some _ => (some env.chosen, env.imread env.chosen)
  | none => (none, none)

/-- C10: with no sample directory configured, `capture` returns the pair
of `None`s — no source identifier and no frame — and performs no live
sensor capture and raises nothing. -/
theorem capture_returns_none_without_sample_dir (env : CaptureEnv)
    (h : env.SAMPLE_DIR = none) : capture env = (none, none) := by
  unfold capture
  rw [h]

/-- Witness for C10 at a concrete environment with no sample directory. -/
theorem capture_returns_none_without_sample_dir_witness :
    (CaptureEnv.mk none "" (fun _ => none)).SAMPLE_DIR = none ∧
    capture (CaptureEnv.mk none "" (fun _ => none)) = (none, none) :=
  ⟨rfl, capture_returns_none_without_sample_dir (CaptureEnv.mk none "" (fun _ => none)) rfl⟩

/-- Fields of `StarTrackerServer` touched by the pipeline loop thread
(startracker.py lines 298-313): the published solution fields `dec`, `ra`,
`ori`, `l_solve`, `t_solve`, the source identifier `p_solve` (which
`capture` may set to `None`), and whether `st_lock` is currently held by
the loop thread. -/
structure ServerState where
  dec : Rat
  ra : Rat
  ori : Rat
  l_solve : PyTimeValue
  t_solve : Rat
  p_solve : Option String
  lockHeld : Bool
deriving DecidableEq

/-- Initial server state from `StarTrackerServer.__init__`
(lines 301-306): all solution fields zero, empty source path, lock free. -/
def initServer : ServerState :=
  { dec := 0, ra := 0, ori := 0, l_solve := PyTimeValue.seconds 0,
    t_solve := 0, p_solve := some "", lockHeld := false }

/-- Python exceptions that the loop body can raise. -/
inductive PyError where
  | nameError (name : String)
  | attributeError (msg : String)
deriving DecidableEq

/-- How one pass of the loop body ends: reaching the bottom of the `while`
body (or a `continue`), or propagating an uncaught exception, which in a
`threading.Thread` target terminates the thread. -/
inductive Outcome where
  | continued
  | raised (e : PyError)
deriving DecidableEq

/-- Observable actions of one loop pass, used to state where the lock is
held and which notifications fire.  `errorMethod` is the corrective call
`self.st.error(...)` (lines 333 and 343); `errorSignal` is the D-Bus
`error` signal the source tries to fire at lines 335 and 345;
`propsChanged` is `self.PropertiesChanged(...)` (line 354);
`sleepBackoff` is `time.sleep(0.5)` (line 355). -/
inductive Event where
  | lockAcquire
  | lockRelease
  | captureCall
  | preprocessCall
  | solveCall
  | errorMethod (msg : String)
  | errorSignal (msg : String)
  | propsChanged (prop : String)
  | sleepBackoff
deriving DecidableEq

/-- Recognizer for the D-Bus diagnostic `error` signal event. -/
def isErrorSignal : Event → Bool
  | Event.errorSignal _ => true
  | _ => false

/-- Environment of one loop iteration: the capture environment, the
astrometry-engine responses for this frame, and the `time.time()` reading
taken at line 350. -/
structure IterEnv where
  captureEnv : CaptureEnv
  solveEnv : SolveEnv
  now : Rat

/-- Result of one loop pass: the server state it leaves behind, the events
it performed in order (each tagged with whether `st_lock` was held by the
loop thread at that moment), and how the pass ended. -/
structure IterResult where
  state : ServerState
  events : List (Event × Bool)
  outcome : Outcome

/-- Translation of one pass of the `while self.st_running` body of
`StarTrackerServer.star_tracker` (startracker.py lines 323-355),
statement by statement.

Line 326 acquires `st_lock` BEFORE any work.  Line 327 assigns
`self.p_solve, img = self.st.capture()`.  Line 331 calls
`self.st.preprocess(img)`, whose first real statement
`height, width, channels = img.shape` (line 119) raises `AttributeError`
when `img` is `None` (no sample directory, or `cv2.imread` failure).
Lines 332-337 (quality rejection): `self.st.error(check)` runs, then
`logger.warning(check + "(for ...)".format(p_solve))` at line 334 raises
`NameError` — the bare name `p_solve` is not defined in the function
(the attribute is `self.p_solve`), so the signal emission, the sleep and
the `continue` at lines 335-337 are unreachable, and the exception leaves
the loop with the lock still held.  Line 340 assigns the solve result to
`self.dec, self.ra, self.ori, self.l_solve`.  Lines 342-347 (bad solve):
the chained test of line 342, then the same unreachable-`NameError`
pattern at line 344.  Lines 350-355 (success): `self.t_solve = time.time()`,
lock release, `PropertiesChanged` for `filepath`, and the 0.5 s backoff
sleep outside the lock. -/
def starTrackerBody (s0 : ServerState) (env : IterEnv) : IterResult :=
  let s1 : ServerState := { s0 with lockHeld := true }
  let cap := capture env.captureEnv
  let s2 : ServerState := { s1 with p_solve := cap.1 }
  let ev2 : List (Event × Bool) := [(Event.lockAcquire, true), (Event.captureCall, true)]
  match cap.2 with
  | none =>
      { state := s2, events := ev2 ++ [(Event.preprocessCall, true)],
        outcome := Outcome.raised
          (PyError.attributeError "NoneType object has no attribute shape") }
  | some img =>
      let check := preprocess img
      let ev3 := ev2 ++ [(Event.preprocessCall, true)]
      if check ≠ "good" then
        { state := s2, events := ev3 ++ [(Event.errorMethod check, true)],
          outcome := Outcome.raised (PyError.nameError "p_solve") }
      else
        let r := solve env.solveEnv
        let s3 : ServerState :=
          { s2 with dec := r.1, ra := r.2.1, ori := r.2.2.1, l_solve := r.2.2.2 }
        let ev4 := ev3 ++ [(Event.solveCall, true)]
        if badSolveCond s3.dec s3.ra s3.ori then
          { state := s3, events := ev4 ++ [(Event.errorMethod "bad solve", true)],
            outcome := Outcome.raised (PyError.nameError "p_solve") }
        else
          let s4 : ServerState := { s3 with t_solve := env.now, lockHeld := false }
          { state := s4,
            events := ev4 ++ [(Event.lockRelease, true),
              (Event.propsChanged "filepath", false), (Event.sleepBackoff, false)],
            outcome := Outcome.continued }

/-- Floor evaluation helper for Python `int()` on concrete rationals. -/
theorem pyInt_eq (q : Rat) (z : Int) (h1 : (z : Rat) ≤ q) (h2 : q < z + 1) :
    pyInt q = z := by
  unfold pyInt
  rw [Int.floor_eq_iff]
  exact ⟨h1, h2⟩

/-- Ten-by-ten frame with a single bright pixel: dark fraction 99 of 100,
inside both calibration bounds. -/
def goodImg : Img := ⟨10, 10, 1, 0⟩

/-- Ten-by-ten all-dark frame with Laplacian variance 1 (below cutoff 5). -/
def darkBlurryImg : Img := ⟨10, 10, 0, 1⟩

/-- Evaluation of the classifier on `goodImg`. -/
theorem preprocess_goodImg : preprocess goodImg = "good" := by
  have h1 : pyInt (((10 * 10 : Nat) : Rat) * (99996744 / 100000000)) = 99 :=
    pyInt_eq _ _ (by norm_num) (by norm_num)
  have h2 : pyInt (((10 * 10 : Nat) : Rat) * (99918619 / 100000000)) = 99 :=
    pyInt_eq _ _ (by norm_num) (by norm_num)
  simp only [preprocess, goodImg]
  simp only [h1, h2]
  norm_num

/-- Evaluation of the classifier on `darkBlurryImg`. -/
theorem preprocess_darkBlurryImg : preprocess darkBlurryImg = "image too blurry" := by
  have h1 : pyInt (((10 * 10 : Nat) : Rat) * (99996744 / 100000000)) = 99 :=
    pyInt_eq _ _ (by norm_num) (by norm_num)
  simp only [preprocess, darkBlurryImg]
  simp only [h1]
  norm_num

/-- C1 counterevidence: whichever per-frame failure occurs — no frame
available (capture yielded no image), a quality verdict other than good,
or an invalid solve (no accepted match) — the loop body does not recover:
it propagates an uncaught exception (`AttributeError` from
`preprocess(None)`, or `NameError` from the unbound `p_solve` reference on
the diagnostic lines), which terminates the worker thread. -/
theorem loop_failure_paths_raise (s : ServerState) (env : IterEnv)
    (h : (capture env.captureEnv).2 = none
       ∨ (∃ img, (capture env.captureEnv).2 = some img ∧ preprocess img ≠ "good")
       ∨ (∃ img, (capture env.captureEnv).2 = some img ∧ preprocess img = "good"
            ∧ solveMatch env.solveEnv = none)) :
    (starTrackerBody s env).outcome =
        Outcome.raised (PyError.attributeError "NoneType object has no attribute shape")
      ∨ (starTrackerBody s env).outcome = Outcome.raised (PyError.nameError "p_solve") := by
  rcases h with h | ⟨img, himg, hbad⟩ | ⟨img, himg, hgood, hmatch⟩
  · left
    simp only [starTrackerBody, h]
  · right
    simp only [starTrackerBody, himg]
    rw [if_pos hbad]
  · right
    have hsolve : solve env.solveEnv = (0, 0, 0, PyTimeValue.timeModule) := by
      unfold solve
      rw [hmatch]
    simp only [starTrackerBody, himg, hsolve]
    rw [if_neg (by simp [hgood]), if_pos ⟨rfl, rfl, rfl⟩]

/-- Capture environment whose sample playback yields `darkBlurryImg`. -/
def rejectEnv : IterEnv :=
  ⟨⟨some "samples/", "dark.png", fun _ => some darkBlurryImg⟩, noMatchEnv, 7⟩

/-- Witness for C1: a concrete iteration whose frame is rejected as too
blurry makes the loop body raise instead of recovering. -/
theorem loop_failure_paths_raise_witness :
    (capture rejectEnv.captureEnv).2 = some darkBlurryImg ∧
    preprocess darkBlurryImg ≠ "good" ∧
    ((starTrackerBody initServer rejectEnv).outcome =
        Outcome.raised (PyError.attributeError "NoneType object has no attribute shape")
      ∨ (starTrackerBody initServer rejectEnv).outcome =
        Outcome.raised (PyError.nameError "p_solve")) :=
  ⟨rfl, by rw [preprocess_darkBlurryImg]; decide,
   loop_failure_paths_raise initServer rejectEnv
     (Or.inr (Or.inl ⟨darkBlurryImg, rfl, by rw [preprocess_darkBlurryImg]; decide⟩))⟩

/-- Engine response with both stages at confidence 1, ten matched stars,
and a nonzero accepted attitude (dec 1, ra 2, ori 3). -/
def okSolveEnv : SolveEnv := ⟨⟨1, 10, 1, 2, 3⟩, ⟨1, 10, 1, 2, 3⟩, 5, 0, 1⟩

/-- Evaluation of `solve` on `okSolveEnv`. -/
theorem solve_okSolveEnv : solve okSolveEnv = (1, 2, 3, PyTimeValue.timeModule) := by
  have h : solveMatch okSolveEnv = some (⟨1, 10, 1, 2, 3⟩ : MatchResult) := by
    norm_num [solveMatch, okSolveEnv, P_MATCH_THRESH]
  unfold solve
  rw [h]

/-- Iteration environment for one fully successful pass: sample playback
yields `goodImg` and the engine accepts with nonzero angles. -/
def goodEnv : IterEnv := ⟨⟨some "samples/", "ok.png", fun _ => some goodImg⟩, okSolveEnv, 42⟩

/-- Full evaluation of one successful loop pass from the initial state. -/
theorem starTrackerBody_goodEnv :
    starTrackerBody initServer goodEnv =
      { state := { dec := 1, ra := 2, ori := 3, l_solve := PyTimeValue.timeModule,
                   t_solve := 42, p_solve := some "ok.png", lockHeld := false },
        events := [(Event.lockAcquire, true), (Event.captureCall, true),
                   (Event.preprocessCall, true), (Event.solveCall, true),
                   (Event.lockRelease, true), (Event.propsChanged "filepath", false),
                   (Event.sleepBackoff, false)],
        outcome := Outcome.continued } := by
  have hcap1 : (capture goodEnv.captureEnv).1 = some "ok.png" := rfl
  have hcap : (capture goodEnv.captureEnv).2 = some goodImg := rfl
  have hsolve : solve goodEnv.solveEnv = (1, 2, 3, PyTimeValue.timeModule) := solve_okSolveEnv
  have hnow : goodEnv.now = 42 := rfl
  simp only [starTrackerBody, hcap, hcap1, hsolve, hnow, preprocess_goodImg]
  rw [if_neg (by decide), if_neg (by norm_num [badSolveCond])]
  rfl

/-- C7 counterevidence: in a successful pass the capture, classification
and solve calls all execute while `st_lock` is held — the exclusive
section spans the whole pipeline work, not just the record replacement
(only the final backoff sleep happens outside the lock). -/
theorem lock_held_during_capture_classify_solve :
    (Event.captureCall, true) ∈ (starTrackerBody initServer goodEnv).events ∧
    (Event.preprocessCall, true) ∈ (starTrackerBody initServer goodEnv).events ∧
    (Event.solveCall, true) ∈ (starTrackerBody initServer goodEnv).events ∧
    (starTrackerBody initServer goodEnv).outcome = Outcome.continued := by
  rw [starTrackerBody_goodEnv]
  refine ⟨?_, ?_, ?_, rfl⟩ <;> simp

/-- Server state left by some earlier successful solve: nonzero published
angles, timestamp 5, source `old.png`, lock free. -/
def oldServer : ServerState :=
  { dec := 8, ra := 9, ori := 10, l_solve := PyTimeValue.timeModule,
    t_solve := 5, p_solve := some "old.png", lockHeld := false }

/-- Iteration environment for a Failed pass: the frame is good but the
engine finds no acceptable match. -/
def failEnv : IterEnv := ⟨⟨some "samples/", "new.png", fun _ => some goodImg⟩, noMatchEnv, 99⟩

/-- Evaluation of `solve` on `noMatchEnv`. -/
theorem solve_noMatchEnv : solve noMatchEnv = (0, 0, 0, PyTimeValue.timeModule) := by
  have h : solveMatch noMatchEnv = none := by
    norm_num [solveMatch, noMatchEnv, P_MATCH_THRESH]
  unfold solve
  rw [h]

/-- Full evaluation of one Failed (invalid-solve) loop pass from
`oldServer`. -/
theorem starTrackerBody_failEnv :
    starTrackerBody oldServer failEnv =
      { state := { dec := 0, ra := 0, ori := 0, l_solve := PyTimeValue.timeModule,
                   t_solve := 5, p_solve := some "new.png", lockHeld := true },
        events := [(Event.lockAcquire, true), (Event.captureCall, true),
                   (Event.preprocessCall, true), (Event.solveCall, true),
                   (Event.errorMethod "bad solve", true)],
        outcome := Outcome.raised (PyError.nameError "p_solve") } := by
  have hcap1 : (capture failEnv.captureEnv).1 = some "new.png" := rfl
  have hcap : (capture failEnv.captureEnv).2 = some goodImg := rfl
  have hsolve : solve failEnv.solveEnv = (0, 0, 0, PyTimeValue.timeModule) := solve_noMatchEnv
  simp only [starTrackerBody, hcap, hcap1, hsolve, preprocess_goodImg]
  rw [if_neg (by decide), if_pos (by norm_num [badSolveCond])]
  rfl

/-- C8 counterevidence: the Failed transition does not leave the Solution
Store untouched — it overwrites the published angles with the all-zero
sentinel, replaces the published source identifier with the new frame's
path, and leaves the old solve timestamp in place, i.e. a partially
rewritten record mixing two cycles. -/
theorem failed_transition_mutates_store :
    (starTrackerBody oldServer failEnv).outcome =
        Outcome.raised (PyError.nameError "p_solve") ∧
    (starTrackerBody oldServer failEnv).state.dec ≠ oldServer.dec ∧
    (starTrackerBody oldServer failEnv).state.ra ≠ oldServer.ra ∧
    (starTrackerBody oldServer failEnv).state.ori ≠ oldServer.ori ∧
    (starTrackerBody oldServer failEnv).state.p_solve ≠ oldServer.p_solve ∧
    (starTrackerBody oldServer failEnv).state.t_solve = oldServer.t_solve := by
  rw [starTrackerBody_failEnv]
  exact ⟨rfl, by norm_num [oldServer], by norm_num [oldServer], by norm_num [oldServer],
    by simp [oldServer], rfl⟩

/-- C9 counterevidence: no pass of the loop body ever emits the D-Bus
`error` signal — on every Rejected and every Failed transition the
diagnostic lines raise `NameError` before (and instead of) the signal
emission at lines 335 and 345, so the promised `error(reason)` signal is
unreachable on every path. -/
theorem error_signal_never_emitted (s : ServerState) (env : IterEnv) :
    ((starTrackerBody s env).events.all fun e => !(isErrorSignal e.1)) = true := by
  cases hcap : (capture env.captureEnv).2 with
  | none => simp [starTrackerBody, hcap, isErrorSignal]
  | some img =>
    by_cases hch : preprocess img = "good"
    · by_cases hbs : badSolveCond (solve env.solveEnv).1 (solve env.solveEnv).2.1
          (solve env.solveEnv).2.2.1
      · simp [starTrackerBody, hcap, hch, hbs, isErrorSignal]
      · simp [starTrackerBody, hcap, hch, hbs, isErrorSignal]
    · simp [starTrackerBody, hcap, hch, isErrorSignal]

/-
Interleaving model for the Solution Store (claim C2).  Every access the
Python program makes to the record fields `dec`, `ra`, `ori`, `t_solve`,
`p_solve` happens with `st_lock` held: the loop thread holds the lock from
line 326 through line 351, and the property getters `coor` (lines 406-411)
and `filepath` (lines 414-419) each read under one acquire/release pair.
The model tags each store field with the index of the loop iteration that
wrote it; field VALUES are irrelevant to the mixing question, only their
provenance matters.  Writer steps follow the program order of one
iteration: acquire (line 326), write `p_solve` (line 327), write
`dec`/`ra`/`ori`/`l_solve` in one tuple assignment (line 340), write
`t_solve` (line 350), release (line 351).  A failing iteration raises
`NameError`/`AttributeError` while still holding the lock — after the
`p_solve` write (quality rejection or missing frame) or after the angle
write (bad solve) — and the dead thread never releases, so `crashed` has
no outgoing writer step and no reader step can ever run again.  A reader
step can fire only while the lock is free, and atomically records the
provenance of all five fields it can observe during its critical section
(readers of `coor` return four of them, `filepath` the fifth).
-/

/-- Solution Store fields tagged with the iteration that last wrote each. -/
structure TaggedStore where
  decTag : Nat
  raTag : Nat
  oriTag : Nat
  tTag : Nat
  pTag : Nat
deriving DecidableEq

/-- Program counter of the writer (pipeline loop) thread inside one
iteration of `star_tracker`. -/
inductive WriterPC where
  | idle
  | locked
  | captured
  | solved
  | stamped
  | crashed
deriving DecidableEq

/-- State of the store-plus-threads system: the tagged store, whether the
loop thread holds `st_lock`, the writer position, the current iteration
index, and the list of field-provenance tuples returned by completed
reader critical sections. -/
structure SysState where
  store : TaggedStore
  lockHeld : Bool
  pc : WriterPC
  iter : Nat
  reads : List (Nat × Nat × Nat × Nat × Nat)

/-- Initial system: fields all written by iteration 0 (the `__init__`
defaults), lock free, no reads yet. -/
def initSys : SysState :=
  { store := ⟨0, 0, 0, 0, 0⟩, lockHeld := false, pc := WriterPC.idle, iter := 0, reads := [] }

/-- One interleaving step of the writer loop or of a reader. -/
inductive SysStep : SysState → SysState → Prop where
  | acquire (st : SysState) (hl : st.lockHeld = false) (hpc : st.pc = WriterPC.idle) :
      SysStep st { st with lockHeld := true, pc := WriterPC.locked, iter := st.iter + 1 }
  | writeP (st : SysState) (hpc : st.pc = WriterPC.locked) :
      SysStep st { st with store := { st.store with pTag := st.iter }, pc := WriterPC.captured }
  | crashAfterCapture (st : SysState) (hpc : st.pc = WriterPC.captured) :
      SysStep st { st with pc := WriterPC.crashed }
  | writeAngles (st : SysState) (hpc : st.pc = WriterPC.captured) :
      SysStep st { st with
        store := { st.store with decTag := st.iter, raTag := st.iter, oriTag := st.iter },
        pc := WriterPC.solved }
  | crashBadSolve (st : SysState) (hpc : st.pc = WriterPC.solved) :
      SysStep st { st with pc := WriterPC.crashed }
  | writeT (st : SysState) (hpc : st.pc = WriterPC.solved) :
      SysStep st { st with store := { st.store with tTag := st.iter }, pc := WriterPC.stamped }
  | release (st : SysState) (hpc : st.pc = WriterPC.stamped) :
      SysStep st { st with lockHeld := false, pc := WriterPC.idle }
  | read (st : SysState) (hl : st.lockHeld = false) :
      SysStep st { st with reads :=
        (st.store.decTag, st.store.raTag, st.store.oriTag, st.store.tTag, st.store.pTag)
          :: st.reads }

/-- System states reachable from the initial state. -/
def SysReachable (st : SysState) : Prop := Relation.ReflTransGen SysStep initSys st

/-- All five provenance tags agree: the whole record was written by one
iteration, i.e. one solve. -/
abbrev tagsEq (t : TaggedStore) : Prop :=
  t.decTag = t.raTag ∧ t.raTag = t.oriTag ∧ t.oriTag = t.tTag ∧ t.tTag = t.pTag

/-- A completed read observed fields all written by one iteration. -/
abbrev readConsistent (r : Nat × Nat × Nat × Nat × Nat) : Prop :=
  r.1 = r.2.1 ∧ r.2.1 = r.2.2.1 ∧ r.2.2.1 = r.2.2.2.1 ∧ r.2.2.2.1 = r.2.2.2.2

/-- Inductive invariant: what holds of the store at each writer position,
and consistency of every completed read. -/
def sysInv (st : SysState) : Prop :=
  (match st.pc with
   | WriterPC.idle => st.lockHeld = false ∧ tagsEq st.store
   | WriterPC.locked => st.lockHeld = true ∧ tagsEq st.store
   | WriterPC.captured => st.lockHeld = true ∧ st.store.pTag = st.iter
   | WriterPC.solved => st.lockHeld = true ∧ st.store.pTag = st.iter ∧
       st.store.decTag = st.iter ∧ st.store.raTag = st.iter ∧ st.store.oriTag = st.iter
   | WriterPC.stamped => st.lockHeld = true ∧ tagsEq st.store
   | WriterPC.crashed => st.lockHeld = true) ∧
  (∀ r ∈ st.reads, readConsistent r)

/-- The invariant holds initially. -/
theorem sysInv_init : sysInv initSys := by
  constructor
  · exact ⟨rfl, rfl, rfl, rfl, rfl⟩
  · intro r hr
    simp [initSys] at hr

/-- Each step preserves the invariant. -/
theorem sysInv_step {a b : SysState} (h : SysStep a b) (ha : sysInv a) : sysInv b := by
  obtain ⟨hpc, hreads⟩ := ha
  cases h with
  | acquire hl hp =>
    rw [hp] at hpc
    exact ⟨⟨rfl, hpc.2⟩, hreads⟩
  | writeP hp =>
    rw [hp] at hpc
    exact ⟨⟨hpc.1, rfl⟩, hreads⟩
  | crashAfterCapture hp =>
    rw [hp] at hpc
    exact ⟨hpc.1, hreads⟩
  | writeAngles hp =>
    rw [hp] at hpc
    exact ⟨⟨hpc.1, hpc.2, rfl, rfl, rfl⟩, hreads⟩
  | crashBadSolve hp =>
    rw [hp] at hpc
    exact ⟨hpc.1, hreads⟩
  | writeT hp =>
    rw [hp] at hpc
    exact ⟨⟨hpc.1, hpc.2.2.1.trans hpc.2.2.2.1.symm, hpc.2.2.2.1.trans hpc.2.2.2.2.symm,
      hpc.2.2.2.2, hpc.2.1.symm⟩, hreads⟩
  | release hp =>
    rw [hp] at hpc
    exact ⟨⟨rfl, hpc.2⟩, hreads⟩
  | read hl =>
    have htags : tagsEq a.store := by
      cases hp : a.pc
      all_goals rw [hp] at hpc
      · exact hpc.2
      · simp [hl] at hpc
      · simp [hl] at hpc
      · simp [hl] at hpc
      · simp [hl] at hpc
      · simp [hl] at hpc
    refine ⟨hpc, ?_⟩
    intro r hr
    rcases List.mem_cons.mp hr with hr | hr
    · rw [hr]
      exact htags
    · exact hreads r hr

/-- The invariant holds in every reachable state. -/
theorem sysInv_reachable (st : SysState) (h : SysReachable st) : sysInv st := by
  unfold SysReachable at h
  induction h with
  | refl => exact sysInv_init
  | tail hab hbc ih => exact sysInv_step hbc ih

/-- C2: in every reachable interleaving of the single writer loop with any
number of concurrent readers, every completed read of the Solution Store
observes declination, right ascension, orientation, solve timestamp and
source identifier all written by the same iteration — never a mix of
fields from two different solves. -/
theorem reads_never_mix_solves (st : SysState) (h : SysReachable st)
    (r : Nat × Nat × Nat × Nat × Nat) (hr : r ∈ st.reads) : readConsistent r :=
  (sysInv_reachable st h).2 r hr

/-- System state after a single reader critical section runs against the
freshly initialized store. -/
def witSys : SysState :=
  { store := ⟨0, 0, 0, 0, 0⟩, lockHeld := false, pc := WriterPC.idle, iter := 0,
    reads := [(0, 0, 0, 0, 0)] }

/-- Witness for C2: the concrete one-read interleaving is reachable and
its read is consistent. -/
theorem reads_never_mix_solves_witness :
    (0, 0, 0, 0, 0) ∈ witSys.reads ∧ readConsistent (0, 0, 0, 0, 0) :=
  ⟨List.mem_singleton.mpr rfl,
   reads_never_mix_solves witSys
     (Relation.ReflTransGen.single (SysStep.read initSys rfl))
     (0, 0, 0, 0, 0) (List.mem_singleton.mpr rfl)⟩

end StarTrackerPy
